import Mathlib

/-!
Shallow embedding of `src/main.rs` of gltf-unlit-generator.

Rust `f32` arithmetic is modelled by exact rational arithmetic (`ℚ`);
the truncating `as u8` cast is modelled by `f32toU8` (floor, clamped to
the `u8` range, which is the defined saturating semantics of the Rust
float-to-integer `as` cast).  A NaN `f32` value, which matters only for
the `--lighten` range check in `process_args`, is modelled by `none`
in `Option ℚ` together with the partial comparison operators
`f32lt`/`f32gt` (every comparison against NaN is false).

Images: `RgbaImage` / `RgbImage` are a width, a height and a row-major
pixel list; the iterator `pixels_mut().zip(other.pixels())` used by the
compositor is modelled by `mutZip`, which rewrites the common prefix of
the pixel lists and leaves the remaining pixels of the mutated image
unchanged, exactly as in-place mutation under `zip` does.
-/

/-- Rust `as u8` applied to a (non-NaN) `f32`: truncate toward zero and
saturate into `[0, 255]`.  For the non-negative values arising here this
is `min 255 ⌊x⌋`. -/
def f32toU8 (x : ℚ) : ℕ := min 255 (Int.toNat ⌊x⌋)

/-- Rust `u8::saturating_add`. -/
def satAdd (a b : ℕ) : ℕ := min 255 (a + b)

/-- One RGBA pixel (each channel a `u8` value, held as `ℕ`). -/
structure Rgba where
  r : ℕ
  g : ℕ
  b : ℕ
  a : ℕ
deriving DecidableEq, Repr

/-- One RGB pixel of an occlusion / emissive map. -/
structure Rgb where
  r : ℕ
  g : ℕ
  b : ℕ
deriving DecidableEq, Repr

/-- Model of `image::RgbaImage`: dimensions plus row-major pixels. -/
structure RgbaImage where
  width : ℕ
  height : ℕ
  pixels : List Rgba
deriving DecidableEq, Repr

/-- Model of `image::RgbImage`: dimensions plus row-major pixels. -/
structure RgbImage where
  width : ℕ
  height : ℕ
  pixels : List Rgb
deriving DecidableEq, Repr

def RgbaImage.dimensions (i : RgbaImage) : ℕ × ℕ := (i.width, i.height)

def RgbImage.dimensions (i : RgbImage) : ℕ × ℕ := (i.width, i.height)

/-- Model of `img.pixels_mut().zip(other.pixels())` followed by a per-pair
mutation: the common prefix is rewritten, pixels of `ps` beyond the
length of `os` are left as they were. -/
def mutZip (f : Rgba → Rgb → Rgba) : List Rgba → List Rgb → List Rgba
  | [], _ => []
  | p :: ps, [] => p :: ps
  | p :: ps, o :: os => f p o :: mutZip f ps os

/-- The `[f32; 4]` base-color factor. -/
structure Factor4 where
  f0 : ℚ
  f1 : ℚ
  f2 : ℚ
  f3 : ℚ
deriving DecidableEq, Repr

/-- The `[f32; 3]` emissive factor. -/
structure Factor3 where
  f0 : ℚ
  f1 : ℚ
  f2 : ℚ
deriving DecidableEq, Repr

/-- Function `apply_occlusion` from `src/main.rs`: `multiplier = strength / 255.0`;
per zipped pixel pair, `occlusion_factor = occ.r * multiplier` and each of
R, G, B is replaced by the truncating cast of `old * occlusion_factor`;
A is not written. -/
def apply_occlusion (img : RgbaImage) (occlusion_map : RgbImage) (strength : ℚ) :
    RgbaImage :=
  let multiplier := strength / 255
  { img with pixels := mutZip (fun pixel occ =>
      let occlusion_factor := (occ.r : ℚ) * multiplier
      { r := f32toU8 ((pixel.r : ℚ) * occlusion_factor)
        g := f32toU8 ((pixel.g : ℚ) * occlusion_factor)
        b := f32toU8 ((pixel.b : ℚ) * occlusion_factor)
        a := pixel.a }) img.pixels occlusion_map.pixels }

/-- Function `apply_emissive` from `src/main.rs`: per zipped pixel pair, each
emissive channel is the truncating cast of `em_channel * color_channel`,
added to the pixel channel with `saturating_add`; A is not written. -/
def apply_emissive (img : RgbaImage) (emissive_map : RgbImage) (color : Factor3) :
    RgbaImage :=
  { img with pixels := mutZip (fun pixel em =>
      let emissive_r := f32toU8 ((em.r : ℚ) * color.f0)
      let emissive_g := f32toU8 ((em.g : ℚ) * color.f1)
      let emissive_b := f32toU8 ((em.b : ℚ) * color.f2)
      { r := satAdd pixel.r emissive_r
        g := satAdd pixel.g emissive_g
        b := satAdd pixel.b emissive_b
        a := pixel.a }) img.pixels emissive_map.pixels }

/-- Function `generate_monocolor` from `src/main.rs`: a uniform raster whose every
pixel is the base-color factor scaled by 255 with truncating casts. -/
def generate_monocolor (w h : ℕ) (color_factor : Factor4) : RgbaImage :=
  { width := w
    height := h
    pixels := List.replicate (w * h)
      { r := f32toU8 (255 * color_factor.f0)
        g := f32toU8 (255 * color_factor.f1)
        b := f32toU8 (255 * color_factor.f2)
        a := f32toU8 (255 * color_factor.f3) } }

/-- The error message built by `validate_dimensions` on a mismatch;
the Rust formatter `{:?}` on a `(u32, u32)` pair prints `(w, h)`. -/
def inconsistent_msg (d : ℕ × ℕ) : String :=
  "Input map has inconsistent dimensions: (" ++ toString d.1 ++ ", " ++
    toString d.2 ++ ")"

/-- The loop body of `validate_dimensions`, with the running `candidate`. -/
def validate_dimensions_go : Option (ℕ × ℕ) → List (ℕ × ℕ) →
    Except String (ℕ × ℕ)
  | candidate, [] =>
    match candidate with
    | some c => .ok c
    | none => .error "No input maps were provided."
  | candidate, d :: rest =>
    if candidate.isSome ∧ candidate ≠ some d then
      .error (inconsistent_msg d)
    else validate_dimensions_go (some d) rest

/-- Function `validate_dimensions` from `src/main.rs`. -/
def validate_dimensions (dimensions : List (ℕ × ℕ)) : Except String (ℕ × ℕ) :=
  validate_dimensions_go none dimensions

/-- The per-pixel base-color pass inlined in `generate_unlit` when a
base-color raster is present: R, G, B are multiplied by the factor
component (truncating cast) and the lighten byte is added with
`saturating_add`; A is multiplied by the fourth factor component
(truncating cast, no lighten, no saturation). -/
def apply_base (img : RgbaImage) (base_color_factor : Factor4) (lighten : ℕ) :
    RgbaImage :=
  { img with pixels := img.pixels.map (fun pixel =>
      { r := satAdd (f32toU8 ((pixel.r : ℚ) * base_color_factor.f0)) lighten
        g := satAdd (f32toU8 ((pixel.g : ℚ) * base_color_factor.f1)) lighten
        b := satAdd (f32toU8 ((pixel.b : ℚ) * base_color_factor.f2)) lighten
        a := f32toU8 ((pixel.a : ℚ) * base_color_factor.f3) }) }

/-- A material as seen by `generate_unlit`, with each of the three
channel references already resolved by `load_if_exists` to a decoded
raster or `none` (absent reference, embedded data view, or decode
failure all yield `none` there).  `occlusion_strength` is the resolved
`map_or(0.0, |t| t.strength())` value. -/
structure MaterialData where
  base_color_factor : Factor4
  base_map : Option RgbaImage
  occlusion_strength : ℚ
  occlusion_map : Option RgbImage
  emissive_factor : Factor3
  emissive_map : Option RgbImage
deriving DecidableEq, Repr

/-- Function `generate_unlit` from `src/main.rs`, after channel loading: validate
the dimensions of the loaded maps (in the order base, occlusion,
emissive), seed the working composite from the base-color raster (with
factor and lighten applied) or from `generate_monocolor`, then apply the
occlusion multiply and the emissive addition when those maps exist. -/
def generate_unlit (m : MaterialData) (lighten_factor : ℚ) :
    Except String RgbaImage :=
  let dimensions := [m.base_map.map RgbaImage.dimensions,
    m.occlusion_map.map RgbImage.dimensions,
    m.emissive_map.map RgbImage.dimensions]
  match validate_dimensions (dimensions.filterMap id) with
  | .error e => .error e
  | .ok (w, h) =>
    let lighten := f32toU8 (lighten_factor * 255)
    let unlit_map := match m.base_map with
      | none => generate_monocolor w h m.base_color_factor
      | some base_map => apply_base base_map m.base_color_factor lighten
    let unlit_map := match m.occlusion_map with
      | some occlusion_map => apply_occlusion unlit_map occlusion_map m.occlusion_strength
      | none => unlit_map
    let unlit_map := match m.emissive_map with
      | some emissive_map => apply_emissive unlit_map emissive_map m.emissive_factor
      | none => unlit_map
    .ok unlit_map

/-- Model of `gltf_json::material::AlphaMode` (`solid` models the OPAQUE variant
of the source). -/
inductive AlphaMode where
  | solid
  | blend
  | mask
deriving DecidableEq, Repr

/-- The name / index / alpha-mode view of a `gltf::Material` used by
`output_filename`; `index` is the `Option<usize>` of the crate (it is `None`
only for the default material). -/
structure MaterialMeta where
  name : Option String
  index : Option ℕ
  alpha_mode : AlphaMode
deriving DecidableEq, Repr

/-- The extension chosen by `output_filename`: `jpg` for the OPAQUE
alpha mode, `png` otherwise. -/
def output_extension (mode : AlphaMode) : String :=
  match mode with
  | .solid => "jpg"
  | _ => "png"

/-- Function `output_filename` from `src/main.rs`.  The unnamed branch calls
`mat.index().unwrap()`; the panic of `unwrap` on `None` is modelled by
the result `none`. -/
def output_filename (mat : MaterialMeta) : Option String :=
  let extension := output_extension mat.alpha_mode
  match mat.name with
  | some name => some (name ++ "_unlit." ++ extension)
  | none => mat.index.map (fun i => "unlit_" ++ toString i ++ "." ++ extension)

/-- The JSON values `main` puts in the result array. -/
inductive JValue where
  | null
  | jstr (s : String)
  | jarr (xs : List JValue)
deriving Repr

/-- Result collection of the success path of `main`: one entry per
material of the document, in document order; the per-material pipeline
(`generate_unlit` then `img.save`) is abstracted as `proc`; an `Ok`
path becomes a JSON string, an `Err` becomes JSON null. -/
def material_outputs {α : Type} (materials : List α)
    (proc : α → Except String String) : List JValue :=
  materials.map (fun material =>
    match proc material with
    | .ok path => JValue.jstr path
    | .error _ => JValue.null)

/-- Comparison `<` on `f32` with NaN modelled as `none`: any comparison with NaN is
false. -/
def f32lt : Option ℚ → Option ℚ → Bool
  | some a, some b => a < b
  | _, _ => false

/-- Comparison `>` on `f32` with NaN modelled as `none`. -/
def f32gt : Option ℚ → Option ℚ → Bool
  | some a, some b => b < a
  | _, _ => false

/-- The lighten-range validation in `process_args`:
`if lighten_factor < 0.0 || lighten_factor > 1.0 { return Err(...) }`. -/
def process_args_lighten (lighten_factor : Option ℚ) :
    Except String (Option ℚ) :=
  if f32lt lighten_factor (some 0) || f32gt lighten_factor (some 1) then
    .error "Lighten value must be between 0.0 and 1.0."
  else .ok lighten_factor

/-- The top-level control flow of `main` restricted to what the claims
need: if `process_args` fails (here: the lighten-range check), a single
JSON null is printed and the exit status is 1 with no material
processed; otherwise the per-material result array is printed and the
exit status is 0.  Returns (printed value, exit status). -/
def main_run {α : Type} (lighten_factor : Option ℚ) (materials : List α)
    (proc : α → Except String String) : JValue × ℕ :=
  match process_args_lighten lighten_factor with
  | .error _ => (JValue.null, 1)
  | .ok _ => (JValue.jarr (material_outputs materials proc), 0)

/-- Whether `needle` occurs as a contiguous run inside `hay` (used to state what
a diagnostic message does or does not identify). -/
def has_sub (needle : List Char) : List Char → Bool
  | [] => needle.isEmpty
  | c :: t => needle.isPrefixOf (c :: t) || has_sub needle t

lemma f32toU8_natCast (n : ℕ) (h : n ≤ 255) : f32toU8 (n : ℚ) = n := by
  simp [f32toU8]
  omega

lemma mutZip_getElem? (f : Rgba → Rgb → Rgba) :
    ∀ (ps : List Rgba) (os : List Rgb) (i : ℕ) (p : Rgba) (o : Rgb),
      ps[i]? = some p → os[i]? = some o →
      (mutZip f ps os)[i]? = some (f p o)
  | [], _, i, _, _, hp, _ => by simp at hp
  | _ :: _, [], i, _, _, _, ho => by simp at ho
  | p :: ps, o :: os, 0, p', o', hp, ho => by
    simp at hp ho
    simp [mutZip, hp, ho]
  | p :: ps, o :: os, i + 1, p', o', hp, ho => by
    simp only [List.getElem?_cons_succ] at hp ho
    simpa [mutZip] using mutZip_getElem? f ps os i p' o' hp ho

/-- C2: for every pixel of the working composite paired with the
corresponding occlusion-map pixel of red value `o`, `apply_occlusion`
replaces each of R, G, B by the truncating float-to-u8 cast of the old
value multiplied by `(o / 255) * strength`, and leaves the A component
of that pixel unchanged. -/
theorem c2_occlusion_pixel (img : RgbaImage) (occlusion_map : RgbImage)
    (strength : ℚ) (i : ℕ) (p : Rgba) (o : Rgb)
    (hp : img.pixels[i]? = some p) (ho : occlusion_map.pixels[i]? = some o) :
    (apply_occlusion img occlusion_map strength).pixels[i]? =
      some { r := f32toU8 ((p.r : ℚ) * ((o.r : ℚ) / 255 * strength))
             g := f32toU8 ((p.g : ℚ) * ((o.r : ℚ) / 255 * strength))
             b := f32toU8 ((p.b : ℚ) * ((o.r : ℚ) / 255 * strength))
             a := p.a } := by
  have key : ∀ x : ℕ, (x : ℚ) * ((o.r : ℚ) * (strength / 255)) =
      (x : ℚ) * ((o.r : ℚ) / 255 * strength) := by
    intro x; ring
  simp only [apply_occlusion]
  rw [mutZip_getElem? _ _ _ _ _ _ hp ho]
  simp [key]

/-- C3: for every pixel of the working composite paired with the
corresponding emissive-map pixel, `apply_emissive` sets each channel to
`min 255 (b + e)` where `e` is the truncating cast of the emissive-map
channel times the emissive-factor component, a saturating addition that
never wraps, and leaves the A component of that pixel unchanged. -/
theorem c3_emissive_pixel (img : RgbaImage) (emissive_map : RgbImage)
    (color : Factor3) (i : ℕ) (p : Rgba) (e : Rgb)
    (hp : img.pixels[i]? = some p) (he : emissive_map.pixels[i]? = some e) :
    (apply_emissive img emissive_map color).pixels[i]? =
      some { r := min 255 (p.r + f32toU8 ((e.r : ℚ) * color.f0))
             g := min 255 (p.g + f32toU8 ((e.g : ℚ) * color.f1))
             b := min 255 (p.b + f32toU8 ((e.b : ℚ) * color.f2))
             a := p.a } := by
  simp only [apply_emissive]
  rw [mutZip_getElem? _ _ _ _ _ _ hp he]
  simp [satAdd]

/-- Witness for C2 at a concrete one-pixel composite and occlusion
map. -/
theorem c2_occlusion_pixel_witness :
    (apply_occlusion ⟨1, 1, [⟨100, 200, 50, 77⟩]⟩ ⟨1, 1, [⟨128, 3, 4⟩]⟩ 1).pixels[0]? =
      some { r := f32toU8 ((100 : ℚ) * ((128 : ℚ) / 255 * 1))
             g := f32toU8 ((200 : ℚ) * ((128 : ℚ) / 255 * 1))
             b := f32toU8 ((50 : ℚ) * ((128 : ℚ) / 255 * 1))
             a := 77 } :=
  c2_occlusion_pixel ⟨1, 1, [⟨100, 200, 50, 77⟩]⟩ ⟨1, 1, [⟨128, 3, 4⟩]⟩ 1 0
    ⟨100, 200, 50, 77⟩ ⟨128, 3, 4⟩ rfl rfl

/-- Witness for C3 at a concrete one-pixel composite and emissive
map. -/
theorem c3_emissive_pixel_witness :
    (apply_emissive ⟨1, 1, [⟨200, 10, 20, 77⟩]⟩ ⟨1, 1, [⟨100, 100, 100⟩]⟩ ⟨1, 1/2, 0⟩).pixels[0]? =
      some { r := min 255 (200 + f32toU8 ((100 : ℚ) * 1))
             g := min 255 (10 + f32toU8 ((100 : ℚ) * (1/2)))
             b := min 255 (20 + f32toU8 ((100 : ℚ) * 0))
             a := 77 } :=
  c3_emissive_pixel ⟨1, 1, [⟨200, 10, 20, 77⟩]⟩ ⟨1, 1, [⟨100, 100, 100⟩]⟩ ⟨1, 1/2, 0⟩ 0
    ⟨200, 10, 20, 77⟩ ⟨100, 100, 100⟩ rfl rfl

/-- C1, counterexample: for a concrete material whose three channel
references all resolve to no loaded raster, processing does not succeed:
`generate_unlit` returns a failure, the error
`No input maps were provided.`, instead of a uniform fallback raster. -/
theorem c1_counterexample :
    generate_unlit
      { base_color_factor := ⟨1, 1, 1, 1⟩
        base_map := none
        occlusion_strength := 0
        occlusion_map := none
        emissive_factor := ⟨0, 0, 0⟩
        emissive_map := none } 0 = Except.error "No input maps were provided." ∧
    (generate_unlit
      { base_color_factor := ⟨1, 1, 1, 1⟩
        base_map := none
        occlusion_strength := 0
        occlusion_map := none
        emissive_factor := ⟨0, 0, 0⟩
        emissive_map := none } 0).isOk = false := ⟨rfl, rfl⟩

/-- C1, amended: for every material whose three channel references all
resolve to no loaded raster, and for every base-color factor, occlusion
strength, emissive factor and lighten value, `generate_unlit` fails with
the error `No input maps were provided.`; no fallback raster is built,
because the solid-color fallback needs a reference size from some loaded
raster. -/
theorem c1_no_maps_means_error (f : Factor4) (s : ℚ) (ef : Factor3) (l : ℚ) :
    generate_unlit
      { base_color_factor := f
        base_map := none
        occlusion_strength := s
        occlusion_map := none
        emissive_factor := ef
        emissive_map := none } l = Except.error "No input maps were provided." := by
  simp [generate_unlit, validate_dimensions, validate_dimensions_go]

/-- C9: for every material without a base-color raster, two runs of
`generate_unlit` that differ only in the lighten scalar produce
identical results: the lighten scalar has no effect unless a base-color
raster is present. -/
theorem c9_lighten_independent (m : MaterialData) (l1 l2 : ℚ)
    (hm : m.base_map = none) : generate_unlit m l1 = generate_unlit m l2 := by
  simp only [generate_unlit, hm]

/-- Witness for C9 at a concrete occlusion-only material and lighten
values 0 and 1. -/
theorem c9_lighten_independent_witness :
    generate_unlit
      { base_color_factor := ⟨1/2, 1/2, 1/2, 1⟩
        base_map := none
        occlusion_strength := 1
        occlusion_map := some ⟨1, 1, [⟨128, 7, 9⟩]⟩
        emissive_factor := ⟨0, 0, 0⟩
        emissive_map := none } 0 =
    generate_unlit
      { base_color_factor := ⟨1/2, 1/2, 1/2, 1⟩
        base_map := none
        occlusion_strength := 1
        occlusion_map := some ⟨1, 1, [⟨128, 7, 9⟩]⟩
        emissive_factor := ⟨0, 0, 0⟩
        emissive_map := none } 1 :=
  c9_lighten_independent _ 0 1 rfl

lemma apply_base_unit (img : RgbaImage)
    (hb : ∀ p ∈ img.pixels, p.r ≤ 255 ∧ p.g ≤ 255 ∧ p.b ≤ 255 ∧ p.a ≤ 255) :
    apply_base img ⟨1, 1, 1, 1⟩ 0 = img := by
  cases img with
  | mk w h ps =>
    simp only [apply_base]
    congr 1
    induction ps with
    | nil => rfl
    | cons p t ih =>
      have ht : ∀ q ∈ t, q.r ≤ 255 ∧ q.g ≤ 255 ∧ q.b ≤ 255 ∧ q.a ≤ 255 := by
        intro q hq; exact hb q (by simp [hq])
      obtain ⟨pr, pg, pb, pa⟩ := p
      have hp := hb ⟨pr, pg, pb, pa⟩ (by simp)
      have h1 : pr ≤ 255 := hp.1
      have h2 : pg ≤ 255 := hp.2.1
      have h3 : pb ≤ 255 := hp.2.2.1
      have h4 : pa ≤ 255 := hp.2.2.2
      simp only [List.map_cons, ih ht, List.cons.injEq, and_true]
      simp [satAdd, Rgba.mk.injEq, f32toU8_natCast pr h1, f32toU8_natCast pg h2,
        f32toU8_natCast pb h3, f32toU8_natCast pa h4]
      all_goals omega

/-- C4: for every material that has only a base-color raster (no
occlusion raster, no emissive raster) with base-color factor
`[1, 1, 1, 1]`, and with the lighten scalar at its default 0, the
generated composite raster is byte-identical to the decoded base-color
raster (whose channel values are `u8` values, hence at most 255). -/
theorem c4_base_only_identity (img : RgbaImage) (s : ℚ) (ef : Factor3)
    (hb : ∀ p ∈ img.pixels, p.r ≤ 255 ∧ p.g ≤ 255 ∧ p.b ≤ 255 ∧ p.a ≤ 255) :
    generate_unlit
      { base_color_factor := ⟨1, 1, 1, 1⟩
        base_map := some img
        occlusion_strength := s
        occlusion_map := none
        emissive_factor := ef
        emissive_map := none } 0 = Except.ok img := by
  have hv : validate_dimensions [img.dimensions] = .ok img.dimensions := by
    simp [validate_dimensions, validate_dimensions_go]
  have hl : f32toU8 (0 : ℚ) = 0 := by norm_num [f32toU8]
  simp [generate_unlit, hv, hl, apply_base_unit img hb]

/-- Witness for C4 at a concrete two-pixel base-color raster. -/
theorem c4_base_only_identity_witness :
    generate_unlit
      { base_color_factor := ⟨1, 1, 1, 1⟩
        base_map := some ⟨2, 1, [⟨10, 20, 30, 40⟩, ⟨255, 0, 5, 255⟩]⟩
        occlusion_strength := 0
        occlusion_map := none
        emissive_factor := ⟨0, 0, 0⟩
        emissive_map := none } 0 =
      Except.ok ⟨2, 1, [⟨10, 20, 30, 40⟩, ⟨255, 0, 5, 255⟩]⟩ :=
  c4_base_only_identity ⟨2, 1, [⟨10, 20, 30, 40⟩, ⟨255, 0, 5, 255⟩]⟩ 0 ⟨0, 0, 0⟩
    (by decide)

lemma validate_go_ok :
    ∀ (ds : List (ℕ × ℕ)) (c r : ℕ × ℕ),
      validate_dimensions_go (some c) ds = .ok r → r = c ∧ ∀ d ∈ ds, d = c
  | [], c, r, h => by
    simp [validate_dimensions_go] at h
    simp [h]
  | d :: rest, c, r, h => by
    by_cases hcd : c = d
    · subst hcd
      simp only [validate_dimensions_go, Option.isSome_some, ne_eq, not_true_eq_false,
        and_false, if_false, true_and] at h
      obtain ⟨hr, hall⟩ := validate_go_ok rest c r (by simpa using h)
      refine ⟨hr, ?_⟩
      intro x hx
      rcases List.mem_cons.mp hx with h1 | h1
      · exact h1
      · exact hall x h1
    · simp [validate_dimensions_go, hcd] at h

lemma validate_go_err :
    ∀ (ds : List (ℕ × ℕ)) (c : ℕ × ℕ) (msg : String),
      validate_dimensions_go (some c) ds = .error msg →
      ∃ d ∈ ds, msg = inconsistent_msg d
  | [], c, msg, h => by simp [validate_dimensions_go] at h
  | d :: rest, c, msg, h => by
    by_cases hcd : c = d
    · subst hcd
      have h2 : validate_dimensions_go (some c) rest = .error msg := by
        simpa [validate_dimensions_go] using h
      obtain ⟨x, hx, hmsg⟩ := validate_go_err rest c msg h2
      exact ⟨x, List.mem_cons_of_mem _ hx, hmsg⟩
    · have h2 : msg = inconsistent_msg d := by
        simp [validate_dimensions_go, hcd] at h
        exact h.symm
      exact ⟨d, List.mem_cons_self _ _, h2⟩

/-- C5, amended: for every material for which two loaded channel
rasters have different `(width, height)`, `validate_dimensions` fails
that material with a diagnostic that identifies the dimensions of one
of the loaded rasters, the mismatching raster encountered later in the
base, occlusion, emissive order (not both dimensions). -/
theorem c5_mismatch_fails (ds : List (ℕ × ℕ)) (a b : ℕ × ℕ)
    (ha : a ∈ ds) (hb : b ∈ ds) (hab : a ≠ b) :
    ∃ d ∈ ds, validate_dimensions ds = Except.error (inconsistent_msg d) := by
  cases ds with
  | nil => cases ha
  | cons d0 rest =>
    have hred : validate_dimensions (d0 :: rest) =
        validate_dimensions_go (some d0) rest := by
      simp [validate_dimensions, validate_dimensions_go]
    cases hgo : validate_dimensions_go (some d0) rest with
    | ok r =>
      obtain ⟨hr, hall⟩ := validate_go_ok rest d0 r hgo
      have haeq : a = d0 := by
        rcases List.mem_cons.mp ha with h | h
        · exact h
        · exact hall a h
      have hbeq : b = d0 := by
        rcases List.mem_cons.mp hb with h | h
        · exact h
        · exact hall b h
      exact absurd (haeq.trans hbeq.symm) hab
    | error msg =>
      obtain ⟨d, hd, hmsg⟩ := validate_go_err rest d0 msg hgo
      refine ⟨d, List.mem_cons_of_mem _ hd, ?_⟩
      rw [hred, hgo, hmsg]

/-- Witness for C5 at the concrete dimension list
`[(1, 1), (2, 2)]`. -/
theorem c5_mismatch_fails_witness :
    ∃ d ∈ [((1 : ℕ), (1 : ℕ)), ((2 : ℕ), (2 : ℕ))],
      validate_dimensions [(1, 1), (2, 2)] = Except.error (inconsistent_msg d) :=
  c5_mismatch_fails [(1, 1), (2, 2)] (1, 1) (2, 2) (by decide) (by decide) (by decide)

/-- C5, counterexample: on the dimension list `[(1, 1), (2, 2)]` the
emitted diagnostic names only `(2, 2)`; the text `(1, 1)` does not
occur in it, so the diagnostic does not identify both mismatching
dimensions. -/
theorem c5_counterexample :
    validate_dimensions [(1, 1), (2, 2)] =
      Except.error "Input map has inconsistent dimensions: (2, 2)" ∧
    has_sub "(1, 1)".data "Input map has inconsistent dimensions: (2, 2)".data = false := by
  refine ⟨rfl, by decide⟩

/-- C6: for every input document, the emitted result array has exactly
one entry per material, in the document material iteration order (entry
`i` is determined by material `i`), and each failed material contributes
a JSON null at its own position, regardless of how many materials
fail. -/
theorem c6_result_array (α : Type) (materials : List α)
    (proc : α → Except String String) :
    (material_outputs materials proc).length = materials.length ∧
    (∀ i : ℕ, (material_outputs materials proc)[i]? =
      (materials[i]?).map (fun material =>
        match proc material with
        | .ok path => JValue.jstr path
        | .error _ => JValue.null)) ∧
    (∀ i : ℕ, ∀ material, materials[i]? = some material →
      (proc material).isOk = false →
      (material_outputs materials proc)[i]? = some JValue.null) := by
  refine ⟨List.length_map _ _, ?_, ?_⟩
  · intro i
    simp [material_outputs, List.getElem?_map]
  · intro i material hm hfail
    simp only [material_outputs, List.getElem?_map, hm, Option.map_some]
    cases hp : proc material with
    | ok v => rw [hp] at hfail; simp [Except.isOk, Except.toBool] at hfail
    | error e => simp [hp]

/-- Witness for C6 on a concrete two-material list whose second
material fails. -/
theorem c6_result_array_witness :
    (material_outputs [true, false]
      (fun b => if b then Except.ok "a" else Except.error "e"))[1]? =
      some JValue.null :=
  (c6_result_array Bool [true, false]
    (fun b => if b then Except.ok "a" else Except.error "e")).2.2 1 false rfl rfl

/-- C7, amended: for every finite lighten scalar value outside the
range `[0, 1]`, the process refuses to run: it emits a single JSON null,
exits with status 1 and processes no material.  (A NaN lighten value,
modelled by `none`, is not refused: see the counterexample.) -/
theorem c7_finite_out_of_range_refused (l : ℚ) (α : Type) (materials : List α)
    (proc : α → Except String String) (h : l < 0 ∨ 1 < l) :
    main_run (some l) materials proc = (JValue.null, 1) := by
  rcases h with h | h
  · simp [main_run, process_args_lighten, f32lt, f32gt, h]
  · simp [main_run, process_args_lighten, f32lt, f32gt, h]

/-- Witness for C7 at the concrete out-of-range lighten value 2. -/
theorem c7_finite_out_of_range_refused_witness :
    main_run (some 2) [()] (fun _ => Except.ok "x") = (JValue.null, 1) :=
  c7_finite_out_of_range_refused 2 Unit [()] (fun _ => Except.ok "x")
    (Or.inr (by norm_num))

/-- C7, counterexample: a NaN lighten value is outside `[0, 1]` but
passes the range check `lighten < 0.0 || lighten > 1.0` (both
comparisons are false for NaN), so the process does not refuse to run:
it processes the materials and exits with status 0, not non-zero. -/
theorem c7_counterexample :
    main_run none [()] (fun _ => Except.ok "x") =
      (JValue.jarr [JValue.jstr "x"], 0) ∧
    (main_run none [()] (fun _ => Except.ok "x")).2 ≠ 1 := by
  constructor
  · rfl
  · intro h
    simp [main_run, process_args_lighten, f32lt, f32gt, material_outputs] at h

/-- C8: for every material, the chosen output filename is
`{name}_unlit.{ext}` when the material has a name and
`unlit_{index}.{ext}` otherwise, where `ext` is `jpg` exactly when the
alpha mode is the OPAQUE variant (`solid` here) and `png` for the blend
and mask variants. -/
theorem c8_output_filename_spec (mat : MaterialMeta) :
    (∀ name, mat.name = some name →
      output_filename mat = some (name ++ "_unlit." ++ output_extension mat.alpha_mode)) ∧
    (∀ i : ℕ, mat.name = none → mat.index = some i →
      output_filename mat = some ("unlit_" ++ toString i ++ "." ++ output_extension mat.alpha_mode)) ∧
    (output_extension mat.alpha_mode = "jpg" ↔ mat.alpha_mode = AlphaMode.solid) ∧
    (mat.alpha_mode ≠ AlphaMode.solid → output_extension mat.alpha_mode = "png") := by
  refine ⟨?_, ?_, ?_, ?_⟩
  · intro name hname
    simp [output_filename, hname]
  · intro i hname hidx
    simp [output_filename, hname, hidx]
  · cases mat.alpha_mode <;> simp [output_extension]
  · cases h : mat.alpha_mode <;> simp [output_extension]

/-- Witness for C8 at a concrete named material with the blend alpha
mode. -/
theorem c8_output_filename_spec_witness :
    output_filename { name := some "wood", index := some 4, alpha_mode := AlphaMode.blend } =
      some ("wood" ++ "_unlit." ++
        output_extension (MaterialMeta.mk (some "wood") (some 4) AlphaMode.blend).alpha_mode) :=
  (c8_output_filename_spec
    { name := some "wood", index := some 4, alpha_mode := AlphaMode.blend }).1 "wood" rfl

/-- C10: for the material with no name and no index, the
filename-choosing operation panics, modelled by the result `none` (the
unnamed branch unwraps the index); the unwrap is safe whenever every
unnamed material carries an index. -/
theorem c10_unwrap_panic :
    output_filename { name := none, index := none, alpha_mode := AlphaMode.solid } = none ∧
    (∀ mat : MaterialMeta, mat.name = none → mat.index.isSome = true →
      (output_filename mat).isSome = true) := by
  constructor
  · rfl
  · intro mat hname hidx
    cases hi : mat.index with
    | none => rw [hi] at hidx; simp at hidx
    | some i => simp [output_filename, hname, hi]

/-- Witness for the safe part of C10 at a concrete unnamed material
that carries an index. -/
theorem c10_unwrap_panic_witness :
    (output_filename { name := none, index := some 0, alpha_mode := AlphaMode.mask }).isSome = true :=
  c10_unwrap_panic.2 { name := none, index := some 0, alpha_mode := AlphaMode.mask } rfl rfl
